import Mathlib

/-!
Verification development for the w4rp2api credential-lifecycle and
stream-adaptor subsystem.  The Python sources
`protobuf2openai/warp_response_handler.py` and `warp2protobuf/core/auth.py`
are shallowly embedded below: JSON values become an inductive `Json`,
stateful `.env` persistence becomes explicit `EnvState` passing, HTTP
responses become explicit oracle arguments, and Python exceptions become
`Except`.  Strings are processed as `List Char`, matching Python's
code-point string semantics.
-/

namespace W4rp

/-- A JSON value as produced by Python's `json` module in this code base.
Numeric literals are modelled as integers: every number that flows through
the embedded code paths (`exp` timestamps, HTTP status codes, quota counts)
is integral. -/
inductive Json where
  | null : Json
  | bool (b : Bool) : Json
  | num (n : Int) : Json
  | str (s : String) : Json
  | arr (elems : List Json) : Json
  | obj (fields : List (String × Json)) : Json

mutual

/-- Structural equality of JSON values, mirroring Python `==` on the values
returned by `json.loads`. -/
def jsonBeq : Json → Json → Bool
  | .null, .null => true
  | .bool a, .bool b => a == b
  | .num a, .num b => a == b
  | .str a, .str b => a == b
  | .arr a, .arr b => jsonListBeq a b
  | .obj a, .obj b => jsonFieldsBeq a b
  | _, _ => false

def jsonListBeq : List Json → List Json → Bool
  | [], [] => true
  | x :: xs, y :: ys => jsonBeq x y && jsonListBeq xs ys
  | _, _ => false

def jsonFieldsBeq : List (String × Json) → List (String × Json) → Bool
  | [], [] => true
  | (k, v) :: xs, (l, w) :: ys => k == l && jsonBeq v w && jsonFieldsBeq xs ys
  | _, _ => false

end

/-- First-match lookup in a JSON object's field list: Python `dict`
subscription/`.get` (a `dict` holds each key once; on association lists we
take the first occurrence). -/
def jsonLookup : List (String × Json) → String → Option Json
  | [], _ => none
  | (k2, v) :: rest, k => if k2 = k then some v else jsonLookup rest k

/-- Python `d.get(k)` on a decoded JSON value: `none` when the value is not
an object or lacks the key. -/
def jsonGet (j : Json) (k : String) : Option Json :=
  match j with
  | .obj f => jsonLookup f k
  | _ => none

/-- Python truth-value testing (`not x`) on a decoded JSON value:
`None`, `False`, `0`, `""`, `[]` and `{}` are falsy. -/
def jsonFalsy : Json → Bool
  | .null => true
  | .bool b => !b
  | .num n => n == 0
  | .str s => s.isEmpty
  | .arr l => l.isEmpty
  | .obj f => f.isEmpty

/-- Substring test on code-point lists (Python `pat in hay` for strings). -/
def hasSub (hay pat : List Char) : Bool :=
  match hay with
  | [] => pat.isEmpty
  | _ :: t => pat.isPrefixOf hay || hasSub t pat

/-- Substring test on strings. -/
def strContains (hay pat : String) : Bool :=
  hasSub hay.data pat.data

/-- ASCII lower-casing of a string, modelling Python `str.lower()` on the
inputs that occur here (the non-ASCII characters in this code base are
Chinese and have no case). -/
def lowerString (s : String) : String :=
  ⟨s.data.map Char.toLower⟩

/-- Python's `in` operator with a string needle against a decoded JSON
value: substring test on strings, membership on lists, key test on dicts;
a `TypeError` on numbers, booleans and `None`. -/
def pyIn (needle : String) (hay : Json) : Except String Bool :=
  match hay with
  | .str s => .ok (strContains s needle)
  | .arr l => .ok (l.any (fun e => jsonBeq e (.str needle)))
  | .obj f => .ok (f.any (fun kv => kv.1 == needle))
  | _ => .error "TypeError: argument is not iterable"

/-- Hexadecimal digit characters used by JSON string escapes. -/
def hexDigit (n : Nat) : Char :=
  "0123456789abcdef".data.getD n '0'

/-- JSON string escaping as performed by `json.dumps(..., ensure_ascii=False)`:
quote, backslash and control characters are escaped, everything else is
emitted verbatim. -/
def escChar (c : Char) : List Char :=
  if c = '"' then ['\\', '"']
  else if c = '\\' then ['\\', '\\']
  else if c = '\n' then ['\\', 'n']
  else if c = '\t' then ['\\', 't']
  else if c = '\r' then ['\\', 'r']
  else if c.toNat = 8 then ['\\', 'b']
  else if c.toNat = 12 then ['\\', 'f']
  else if c.toNat < 32 then
    ['\\', 'u', '0', '0', hexDigit (c.toNat / 16), hexDigit (c.toNat % 16)]
  else [c]

/-- A JSON string literal as emitted by `json.dumps`. -/
def escString (s : String) : String :=
  ⟨'"' :: (s.data.map escChar).flatten ++ ['"']⟩

mutual

/-- `json.dumps(v, ensure_ascii=False)` with the default separators
`", "` and `": "`: a single-line rendering (newlines inside strings are
escaped, so the output never contains a raw newline). -/
def jsonDumps : Json → String
  | .null => "null"
  | .bool b => if b then "true" else "false"
  | .num n => toString n
  | .str s => escString s
  | .arr l => "[" ++ jsonDumpsList l ++ "]"
  | .obj f => "\x7b" ++ jsonDumpsFields f ++ "\x7d"

def jsonDumpsList : List Json → String
  | [] => ""
  | [x] => jsonDumps x
  | x :: xs => jsonDumps x ++ ", " ++ jsonDumpsList xs

def jsonDumpsFields : List (String × Json) → String
  | [] => ""
  | [(k, v)] => escString k ++ ": " ++ jsonDumps v
  | (k, v) :: xs => escString k ++ ": " ++ jsonDumps v ++ ", " ++ jsonDumpsFields xs

end

/-- Regex search for `a.*?b` (as in the stuck indicator
`begin_transaction.*rollback_transaction`): an occurrence of `a` followed,
at or after its end, by an occurrence of `b`.  Laziness of `.*?` does not
affect whether a search succeeds.  `.` not matching a newline is immaterial
here: the searched text is a `json.dumps` single-line rendering. -/
def hasSeq2 (hay a b : List Char) : Bool :=
  match hay with
  | [] => a.isEmpty && b.isEmpty
  | _ :: t => (a.isPrefixOf hay && hasSub (hay.drop a.length) b) || hasSeq2 t a b

/-- Regex search for `a.*?b.*?c`: occurrences of `a`, `b`, `c` in order. -/
def hasSeq3 (hay a b c : List Char) : Bool :=
  match hay with
  | [] => a.isEmpty && b.isEmpty && c.isEmpty
  | _ :: t => (a.isPrefixOf hay && hasSeq2 (hay.drop a.length) b c) || hasSeq3 t a b c

/-- `TransactionState` of `warp_response_handler.py` (lines 18-23). -/
inductive TransactionState where
  | idle
  | active
  | failed
  | retrying
  deriving DecidableEq

/-- The mutable fields of `WarpResponseHandler` (lines 29-32).  The
`stuck_indicators` and `file_operation_keywords` lists are constants and are
embedded directly in the functions that read them. -/
structure HandlerState where
  transaction_state : TransactionState
  retry_count : Nat
  max_retries : Nat
  deriving DecidableEq

/-- `WarpResponseHandler.__init__(max_retries)`: state `idle`, retry count 0. -/
def mkHandler (maxRetries : Nat) : HandlerState :=
  { transaction_state := .idle, retry_count := 0, max_retries := maxRetries }

/-- The generator inside the `any(...)` of `_contains_action`: scan the
actions left to right; a string action is tested by substring, a list by
membership, a dict by key; a number/boolean/None action raises, which the
surrounding `try` turns into `False` (earlier `True` elements short-circuit
first). -/
def anyPyIn (actions : List Json) (needle : String) : Bool :=
  match actions with
  | [] => false
  | a :: rest =>
    match pyIn needle a with
    | .ok true => true
    | .ok false => anyPyIn rest needle
    | .error _ => false

/-- `WarpResponseHandler._contains_action` (lines 95-105): navigate
`event_data["client_actions"]["actions"]` with `{}`/`[]` defaults and
`isinstance` guards; any exception yields `False`. -/
def containsAction (e : Json) (actionType : String) : Bool :=
  match e with
  | .obj fields =>
    match jsonLookup fields "client_actions" with
    | some (.obj ca) =>
      match jsonLookup ca "actions" with
      | some (.arr actions) => anyPyIn actions actionType
      | some _ => false
      | none => false
    | some _ => false
    | none => false
  | _ => false

/-- The lazy third disjunct of `has_content` in `_is_stuck_response`
(line 123): `"text" in event_data.get("message", \x7b\x7d).get("agent_output", \x7b\x7d)`;
`.get` on a non-dict raises `AttributeError`. -/
def stuckTextProbe (e : Json) : Except String Bool :=
  match e with
  | .obj fields =>
    match (jsonLookup fields "message").getD (.obj []) with
    | .obj mf => pyIn "text" ((jsonLookup mf "agent_output").getD (.obj []))
    | _ => .error "AttributeError: no attribute get"
  | _ => .error "AttributeError: no attribute get"

/-- The body of `_is_stuck_response` (lines 107-133) before its exception
handler.  Note the second stuck indicator is the literal
`update_task_description`, so the later `update_task_description` block
(lines 118-127) is unreachable: any event string containing that substring
already returned `True` in the indicator loop.  It is kept here verbatim. -/
def isStuckBody (e : Json) : Except String Bool :=
  let eventStr := lowerString (jsonDumps e)
  if strContains eventStr "rollback_transaction" then .ok true
  else if strContains eventStr "update_task_description" then .ok true
  else if hasSeq2 eventStr.data "begin_transaction".data "rollback_transaction".data then .ok true
  else if strContains eventStr "update_task_description" then do
    let hasContent ←
      if strContains eventStr "append_to_message_content" then pure true
      else if strContains eventStr "agent_output" then pure true
      else stuckTextProbe e
    pure (!hasContent)
  else .ok false

/-- `WarpResponseHandler._is_stuck_response`: any exception yields `False`. -/
def isStuckResponse (e : Json) : Bool :=
  match isStuckBody e with
  | .ok b => b
  | .error _ => false

/-- The `retry_messages` list of `_create_retry_response` (lines 137-141). -/
def retryMessages : List String :=
  ["让我重新为您处理这个请求...",
   "正在尝试不同的方式来帮助您...",
   "切换到更稳定的处理方式..."]

/-- `WarpResponseHandler._create_retry_response` (lines 135-151), as a
function of the handler's `retry_count` at the time of the call (the call
sites invoke it right after incrementing). -/
def createRetryResponse (retryCount : Nat) : Json :=
  let message := retryMessages.getD ((retryCount - 1) % retryMessages.length) ""
  .obj [("choices", .arr [.obj [("delta",
    .obj [("content", .str ("\n\n🔄 " ++ message ++ "\n\n"))])]])]

/-- `WarpResponseHandler._create_fallback_response` (lines 153-173); the
content below is the source's triple-quoted `fallback_content` after its
`.strip()`. -/
def createFallbackResponse : Json :=
  .obj [("choices", .arr [.obj [("delta", .obj [("content", .str
    ("⚠️ 由于技术限制，我无法直接执行文件操作。\n\n不过我可以为您提供以下替代方案：\n\n1. **代码示例和指导**：我可以为您提供完整的代码示例和实现思路\n2. **分步骤说明**：详细说明如何在您的环境中实现相关功能\n3. **最佳实践建议**：分享相关的最佳实践和技术建议\n\n请告诉我您想要实现什么功能，我会为您提供详细的代码示例和实施指导！"))])]])]

/-- `WarpResponseHandler.handle_sse_event` (lines 44-93): the branch chain on
`begin_transaction` / `rollback_transaction` / `commit_transaction` / stuck
signature, returning the updated handler state together with the emitted
event (the source always returns an event; its `except` arm is unreachable
because every helper catches its own exceptions).  Note the stuck branch
(lines 81-87) increments `retry_count` but does not touch
`transaction_state`. -/
def handleSSEEvent (s : HandlerState) (e : Json) : HandlerState × Json :=
  if containsAction e "begin_transaction" then
    ({ s with transaction_state := .active, retry_count := 0 }, e)
  else if containsAction e "rollback_transaction" then
    let s1 := { s with transaction_state := .failed }
    if s1.retry_count < s1.max_retries then
      let s2 := { s1 with retry_count := s1.retry_count + 1, transaction_state := .retrying }
      (s2, createRetryResponse s2.retry_count)
    else
      (s1, createFallbackResponse)
  else if containsAction e "commit_transaction" then
    ({ s with transaction_state := .idle }, e)
  else if isStuckResponse e then
    if s.retry_count < s.max_retries then
      let s2 := { s with retry_count := s.retry_count + 1 }
      (s2, createRetryResponse s2.retry_count)
    else
      (s, createFallbackResponse)
  else
    (s, e)

/-- The adaptor run over a whole inbound stream: one emitted event per
inbound event, threading the handler state. -/
def processEvents (s : HandlerState) (es : List Json) : HandlerState × List Json :=
  match es with
  | [] => (s, [])
  | e :: rest =>
    let step := handleSSEEvent s e
    let tail := processEvents step.1 rest
    (tail.1, step.2 :: tail.2)

/-- Classification of what `handle_sse_event` emits for one event in a given
state: a pass-through of the inbound event, a synthesized retry marker, or
the synthesized fallback message. -/
inductive EmitKind where
  | pass
  | retryMarker
  | fallback
  deriving DecidableEq

/-- The branch `handle_sse_event` takes, read off the same conditions. -/
def emitKind (s : HandlerState) (e : Json) : EmitKind :=
  if containsAction e "begin_transaction" then .pass
  else if containsAction e "rollback_transaction" then
    if s.retry_count < s.max_retries then .retryMarker else .fallback
  else if containsAction e "commit_transaction" then .pass
  else if isStuckResponse e then
    if s.retry_count < s.max_retries then .retryMarker else .fallback
  else .pass

/-- Number of synthesized retry markers the adaptor emits over a stream. -/
def countRetryMarkers (s : HandlerState) (es : List Json) : Nat :=
  match es with
  | [] => 0
  | e :: rest =>
    (if emitKind s e = .retryMarker then 1 else 0) +
      countRetryMarkers (handleSSEEvent s e).1 rest

/-- The eight `risk_patterns` of `assess_file_operation_risk` (lines
194-203), evaluated with `re.IGNORECASE` on the lower-cased message.  Each
`A.*?B` regex is the ordered-occurrence search `hasSeq2`/`hasSeq3`; regex
alternation `|` binds loosest, so pattern 4 is
`修改.*?\.py` or the literal `\.js` / `\.html` / `\.ts` / `\.css`. -/
def riskPatternMatches (msgL : List Char) : List Bool :=
  [hasSeq2 msgL "创建".data "文件".data,
   hasSeq3 msgL "写".data "到".data "文件".data,
   hasSeq2 msgL "保存".data "代码".data,
   (hasSeq2 msgL "修改".data ".py".data || hasSub msgL ".js".data ||
     hasSub msgL ".html".data || hasSub msgL ".ts".data || hasSub msgL ".css".data),
   hasSeq2 msgL "create".data "file".data,
   hasSeq3 msgL "write".data "to".data "file".data,
   hasSeq2 msgL "save".data "code".data,
   hasSeq3 msgL "implement".data "in".data "file".data]

/-- The eleven `file_operation_keywords` of `WarpResponseHandler.__init__`
(lines 38-42). -/
def fileOperationKeywords : List String :=
  ["创建文件", "修改代码", "写代码", "保存", "文件",
   "create file", "write code", "save", "implement",
   "apply_file_diffs", "create_files", "read_files"]

/-- Python `min(a, b)`: `a` when `a ≤ b`, else `b`. -/
def pyMin (a b : ℚ) : ℚ :=
  if a ≤ b then a else b

/-- `WarpResponseHandler.assess_file_operation_risk` (lines 189-215):
+1 per matching pattern, +0.5 per keyword contained in the lower-cased
message, then `min(score / (8 + 11), 1.0)`.  Python's float arithmetic is
modelled exactly over `ℚ`; no value compared here lies near a rounding
boundary. -/
def assessFileOperationRisk (msg : String) : ℚ :=
  if msg.isEmpty then 0
  else
    let msgL := (lowerString msg).data
    let patternScore : Nat := ((riskPatternMatches msgL).filter id).length
    let keywordScore : Nat :=
      (fileOperationKeywords.filter (fun k => hasSub msgL k.data)).length
    pyMin (((patternScore : ℚ) + (keywordScore : ℚ) / 2) / 19) 1

/-- `WarpResponseHandler.transform_risky_request` (lines 217-234); the two
templates are the source's f-strings with their surrounding `.strip()`
applied to the assembled text (`String.trim` models Python `str.strip`). -/
def transformRiskyRequest (msg : String) (riskScore : ℚ) : String :=
  if riskScore > 7/10 then
    ("\n请为以下需求提供代码示例和实现建议（以教学方式，不直接创建文件）：\n\n用户需求：" ++
      msg ++ "\n\n请详细解释实现步骤，并提供完整的代码示例。\n            ").trim
  else if riskScore > 2/5 then
    ("\n" ++ msg ++ "\n\n请注意：我会以代码示例的形式为您提供解决方案。\n            ").trim
  else msg

/-- The three `.env` keys written by `core/auth.py`: `WARP_JWT` (access
token), `WARP_REFRESH_TOKEN`, `WARP_ID_TOKEN`.  `set_key` rewrites one key
in place; the other keys are untouched, which the record update models. -/
structure EnvState where
  jwt : Option String
  refreshToken : Option String
  idToken : Option String
  deriving DecidableEq

/-- An upstream HTTP response as consumed by `core/auth.py`: the status
code, `response.text`, and `response.json()` (`none` when the body is not
valid JSON, in which case `.json()` raises).  An outbound call itself is
modelled as `Option HttpResponse`, `none` being a transport exception. -/
structure HttpResponse where
  status : Nat
  text : String
  body : Option Json

/-- `update_env_id_token` (auth.py lines 125-134): `set_key` on
`WARP_ID_TOKEN`; with a non-string value `set_key` raises and the helper
catches, leaving the file untouched. -/
def updateEnvIdToken (env : EnvState) (v : Json) : EnvState :=
  match v with
  | .str s => { env with idToken := some s }
  | _ => env

/-- Builds the `\x7b"error_type": ...\x7d` dict `refresh_jwt_token` returns on
failure. -/
def errJson (errorType : String) : Json :=
  .obj [("error_type", .str errorType)]

/-- The error-classification chain of `refresh_jwt_token` (auth.py lines
94-106), an `elif` chain on the status code first: a 429 whose body lacks
the quota phrases falls through with the default `refresh_failed` and the
body patterns for invalid tokens are never consulted. -/
def refreshErrorType (status : Nat) (text : String) : String :=
  let rt := lowerString text
  if status = 401 then "invalid_token"
  else if status = 429 then
    if strContains rt "no remaining quota" || strContains rt "no ai requests remaining" then
      "quota_exhausted"
    else "refresh_failed"
  else if strContains rt "invalid_grant" || strContains rt "invalid_token" then
    "invalid_token"
  else if strContains rt "refresh token is invalid" then "invalid_token"
  else "refresh_failed"

/-- `refresh_jwt_token` (auth.py lines 50-111) given the outcome of its one
outbound POST.  On a 200 it parses the body, persists `id_token` when the
parsed dict carries one (`update_env_id_token`), and returns the parsed
body; the caller recognises success by an `access_token` key.  Any
exception inside the `try` (JSON parse failure, `in` on a non-container,
subscripting a non-dict) is caught and mapped to
`\x7b"error_type": "refresh_failed"\x7d`.  On a non-200 it returns the classified
error.  The access token itself is persisted by the callers, not here. -/
def refreshJwtToken (resp : Option HttpResponse) (env : EnvState) : Json × EnvState :=
  match resp with
  | none => (errJson "refresh_failed", env)
  | some r =>
    if r.status = 200 then
      match r.body with
      | none => (errJson "refresh_failed", env)
      | some tokenData =>
        match pyIn "id_token" tokenData with
        | .error _ => (errJson "refresh_failed", env)
        | .ok false => (tokenData, env)
        | .ok true =>
          match tokenData with
          | .obj fields =>
            (tokenData, updateEnvIdToken env ((jsonLookup fields "id_token").getD .null))
          | _ => (errJson "refresh_failed", env)
    else
      (errJson (refreshErrorType r.status r.text), env)

/-- The `idToken` extraction of `acquire_anonymous_access_token` (auth.py
lines 557-563): `data["data"]["createAnonymousUser"].get("idToken")` inside
`try/except: pass`, followed by `if not id_token: raise`.  `none` means the
extraction failed or produced a falsy value. -/
def anonIdTokenOf (data : Json) : Option Json :=
  let raw : Option Json :=
    match jsonGet data "data" with
    | some d =>
      match d with
      | .obj df =>
        match jsonLookup df "createAnonymousUser" with
        | some (.obj cf) => some ((jsonLookup cf "idToken").getD .null)
        | some _ => none
        | none => none
      | _ => none
    | none => none
  match raw with
  | some v => if jsonFalsy v then none else some v
  | none => none

/-- `signin.get("refreshToken")` followed by `if not refresh_token: raise`
(auth.py lines 566-568); `.get` on a non-dict raises `AttributeError`. -/
def anonRefreshTokenOf (signin : Json) : Except String Json :=
  match signin with
  | .obj f =>
    let v := (jsonLookup f "refreshToken").getD .null
    if jsonFalsy v then
      .error "signInWithCustomToken did not return refreshToken"
    else .ok v
  | _ => .error "AttributeError: no attribute get"

/-- `token_data.get("access_token")` followed by `if not access: raise`
(auth.py lines 589-592). -/
def anonAccessTokenOf (tokenData : Json) : Except String Json :=
  match tokenData with
  | .obj f =>
    let v := (jsonLookup f "access_token").getD .null
    if jsonFalsy v then .error "No access_token in response" else .ok v
  | _ => .error "AttributeError: no attribute get"

/-- `acquire_anonymous_access_token` (auth.py lines 550-594), given the
outcomes of its three outbound calls: the `CreateAnonymousUser` GraphQL
mutation, the identity-toolkit custom-token sign-in, and the proxy token
exchange.  After step 2 the new refresh token is persisted immediately
(`update_env_refresh_token`, line 571) — before the access-token exchange
— and on full success the access token is persisted (`update_env_file`,
line 593).  `WARP_ID_TOKEN` is never written by this function.  A raised
`RuntimeError` is returned as `.error`; persisted state reached before the
raise remains. -/
def acquireAnonymousAccessToken (r1 r2 r3 : Option HttpResponse) (env : EnvState) :
    Except String Json × EnvState :=
  match r1 with
  | none => (.error "CreateAnonymousUser transport error", env)
  | some a =>
    if a.status ≠ 200 then (.error "CreateAnonymousUser failed", env)
    else
      match a.body with
      | none => (.error "CreateAnonymousUser returned invalid JSON", env)
      | some data =>
        match anonIdTokenOf data with
        | none => (.error "CreateAnonymousUser did not return idToken", env)
        | some _ =>
          match r2 with
          | none => (.error "signInWithCustomToken transport error", env)
          | some b =>
            if b.status ≠ 200 then (.error "signInWithCustomToken failed", env)
            else
              match b.body with
              | none => (.error "signInWithCustomToken returned invalid JSON", env)
              | some signin =>
                match anonRefreshTokenOf signin with
                | .error e => (.error e, env)
                | .ok rtok =>
                  let env1 :=
                    match rtok with
                    | .str s => { env with refreshToken := some s }
                    | _ => env
                  match r3 with
                  | none => (.error "token endpoint transport error", env1)
                  | some c =>
                    if c.status ≠ 200 then (.error "Acquire access_token failed", env1)
                    else
                      match c.body with
                      | none => (.error "token endpoint returned invalid JSON", env1)
                      | some td =>
                        match anonAccessTokenOf td with
                        | .error e => (.error e, env1)
                        | .ok acc =>
                          let env2 :=
                            match acc with
                            | .str s => { env1 with jwt := some s }
                            | _ => env1
                          (.ok acc, env2)

/-- Value of one character in the url-safe base64 alphabet
(`A-Z a-z 0-9 - _`), as used by `base64.urlsafe_b64decode`. -/
def b64Val (c : Char) : Option Nat :=
  if 65 ≤ c.toNat ∧ c.toNat ≤ 90 then some (c.toNat - 65)
  else if 97 ≤ c.toNat ∧ c.toNat ≤ 122 then some (c.toNat - 97 + 26)
  else if 48 ≤ c.toNat ∧ c.toNat ≤ 57 then some (c.toNat - 48 + 52)
  else if c = '-' then some 62
  else if c = '_' then some 63
  else none

/-- Decode 4-character base64 groups into bytes.  A group ending in `=` or
`==` yields its 2 or 1 bytes and terminates decoding (as
`binascii.a2b_base64` does); `=` elsewhere is an error. -/
def b64Groups : List Char → Option (List Nat)
  | [] => some []
  | c1 :: c2 :: c3 :: c4 :: rest =>
    match b64Val c1, b64Val c2 with
    | some v1, some v2 =>
      if c3 = '=' then
        if c4 = '=' then some [v1 * 4 + v2 / 16] else none
      else
        match b64Val c3 with
        | some v3 =>
          if c4 = '=' then some [v1 * 4 + v2 / 16, (v2 % 16) * 16 + v3 / 4]
          else
            match b64Val c4 with
            | some v4 =>
              (b64Groups rest).map
                (fun bs => (v1 * 4 + v2 / 16) :: ((v2 % 16) * 16 + v3 / 4) ::
                  ((v3 % 4) * 64 + v4) :: bs)
            | none => none
        | none => none
    | _, _ => none
  | _ => none

/-- `base64.urlsafe_b64decode` on the inputs arising here: characters
outside the alphabet and `=` are discarded (the stdlib decodes with
`validate=False`), the remaining length must be a multiple of 4, and the
groups are decoded. -/
def b64DecodeUrl (cs : List Char) : Option (List Nat) :=
  let kept := cs.filter (fun c => (b64Val c).isSome || c = '=')
  if kept.length % 4 ≠ 0 then none else b64Groups kept

/-- Strict UTF-8 decoding of a byte list (`bytes.decode("utf-8")`):
rejects bad continuation bytes, overlong forms, surrogates and
out-of-range code points. -/
def utf8Decode : List Nat → Option (List Char)
  | [] => some []
  | b1 :: rest =>
    if b1 < 128 then (utf8Decode rest).map (Char.ofNat b1 :: ·)
    else if 194 ≤ b1 ∧ b1 ≤ 223 then
      match rest with
      | b2 :: rest2 =>
        if 128 ≤ b2 ∧ b2 ≤ 191 then
          (utf8Decode rest2).map (Char.ofNat ((b1 - 192) * 64 + (b2 - 128)) :: ·)
        else none
      | [] => none
    else if 224 ≤ b1 ∧ b1 ≤ 239 then
      match rest with
      | b2 :: b3 :: rest3 =>
        if 128 ≤ b2 ∧ b2 ≤ 191 ∧ 128 ≤ b3 ∧ b3 ≤ 191 then
          let cp := (b1 - 224) * 4096 + (b2 - 128) * 64 + (b3 - 128)
          if 2048 ≤ cp ∧ ¬(55296 ≤ cp ∧ cp ≤ 57343) then
            (utf8Decode rest3).map (Char.ofNat cp :: ·)
          else none
        else none
      | _ => none
    else if 240 ≤ b1 ∧ b1 ≤ 244 then
      match rest with
      | b2 :: b3 :: b4 :: rest4 =>
        if 128 ≤ b2 ∧ b2 ≤ 191 ∧ 128 ≤ b3 ∧ b3 ≤ 191 ∧ 128 ≤ b4 ∧ b4 ≤ 191 then
          let cp := (b1 - 240) * 262144 + (b2 - 128) * 4096 + (b3 - 128) * 64 + (b4 - 128)
          if 65536 ≤ cp ∧ cp ≤ 1114111 then
            (utf8Decode rest4).map (Char.ofNat cp :: ·)
          else none
        else none
      | _ => none
    else none

/-- JSON insignificant whitespace. -/
def skipWs (cs : List Char) : List Char :=
  cs.dropWhile (fun c => c = ' ' || c = '\n' || c = '\t' || c = '\r')

/-- Whether a character is a hexadecimal digit. -/
def isHexChar (c : Char) : Bool :=
  c.isDigit || (97 ≤ c.toNat && c.toNat ≤ 102) || (65 ≤ c.toNat && c.toNat ≤ 70)

/-- Numeric value of a hexadecimal digit character. -/
def hexCharVal (c : Char) : Nat :=
  if c.isDigit then c.toNat - 48
  else if 97 ≤ c.toNat then c.toNat - 97 + 10
  else c.toNat - 65 + 10

/-- Body of a JSON string literal after the opening quote: returns the
content and the remainder after the closing quote.  The short escapes are
those of RFC 8259; `\uXXXX` is decoded for non-surrogate code points
(surrogate escapes do not occur in the tokens this code decodes and are
rejected). -/
def parseStrBody : List Char → Option (List Char × List Char)
  | [] => none
  | c :: rest =>
    if c = '"' then some ([], rest)
    else if c = '\\' then
      match rest with
      | [] => none
      | e :: rest2 =>
        if e = '"' || e = '\\' || e = '/' then
          (parseStrBody rest2).map (fun p => (e :: p.1, p.2))
        else if e = 'n' then (parseStrBody rest2).map (fun p => ('\n' :: p.1, p.2))
        else if e = 't' then (parseStrBody rest2).map (fun p => ('\t' :: p.1, p.2))
        else if e = 'r' then (parseStrBody rest2).map (fun p => ('\r' :: p.1, p.2))
        else if e = 'b' then (parseStrBody rest2).map (fun p => (Char.ofNat 8 :: p.1, p.2))
        else if e = 'f' then (parseStrBody rest2).map (fun p => (Char.ofNat 12 :: p.1, p.2))
        else if e = 'u' then
          match rest2 with
          | h1 :: h2 :: h3 :: h4 :: rest3 =>
            if isHexChar h1 && isHexChar h2 && isHexChar h3 && isHexChar h4 then
              let cp := 4096 * hexCharVal h1 + 256 * hexCharVal h2 +
                16 * hexCharVal h3 + hexCharVal h4
              if 55296 ≤ cp ∧ cp ≤ 57343 then none
              else (parseStrBody rest3).map (fun p => (Char.ofNat cp :: p.1, p.2))
            else none
          | _ => none
        else none
    else if c.toNat < 32 then none
    else (parseStrBody rest).map (fun p => (c :: p.1, p.2))

/-- A JSON integer literal: optional minus and a digit run.  Python's
`json.loads` also accepts floats; a fraction or exponent is rejected here,
matching the integer-only `Json.num` model (the decoded `exp` payloads in
this code base are integral). -/
def parseIntLit (cs : List Char) : Option (Int × List Char) :=
  let core : List Char → Option (Int × List Char) := fun ds =>
    let digits := ds.takeWhile Char.isDigit
    let rest := ds.dropWhile Char.isDigit
    if digits.isEmpty then none
    else
      match rest with
      | r :: _ =>
        if r = '.' || r = 'e' || r = 'E' then none
        else some ((digits.foldl (fun acc d => acc * 10 + (d.toNat - 48)) 0 : Nat), rest)
      | [] => some ((digits.foldl (fun acc d => acc * 10 + (d.toNat - 48)) 0 : Nat), rest)
  match cs with
  | '-' :: ds => (core ds).map (fun p => (-p.1, p.2))
  | ds => core ds

mutual

/-- One JSON value, fuelled (each recursive step consumes fuel; `jsonLoads`
supplies more fuel than the input length, which is always enough because
every nesting step and every further array element or object field consumes
at least one input character). -/
def parseJson : Nat → List Char → Option (Json × List Char)
  | 0, _ => none
  | fuel + 1, cs =>
    match skipWs cs with
    | [] => none
    | c :: rest =>
      if c = 'n' then
        if ['u', 'l', 'l'].isPrefixOf rest then some (.null, rest.drop 3) else none
      else if c = 't' then
        if ['r', 'u', 'e'].isPrefixOf rest then some (.bool true, rest.drop 3) else none
      else if c = 'f' then
        if ['a', 'l', 's', 'e'].isPrefixOf rest then some (.bool false, rest.drop 4) else none
      else if c = '"' then (parseStrBody rest).map (fun p => (.str ⟨p.1⟩, p.2))
      else if c = '-' || c.isDigit then (parseIntLit (c :: rest)).map (fun p => (.num p.1, p.2))
      else if c.toNat = 123 then
        match skipWs rest with
        | d :: rest2 =>
          if d.toNat = 125 then some (.obj [], rest2)
          else (parseObjFields fuel (d :: rest2)).map (fun p => (.obj p.1, p.2))
        | [] => none
      else if c = '[' then
        match skipWs rest with
        | d :: rest2 =>
          if d = ']' then some (.arr [], rest2)
          else (parseArrElems fuel (d :: rest2)).map (fun p => (.arr p.1, p.2))
        | [] => none
      else none

/-- Comma-separated JSON values up to a closing `]`. -/
def parseArrElems : Nat → List Char → Option (List Json × List Char)
  | 0, _ => none
  | fuel + 1, cs =>
    match parseJson fuel cs with
    | none => none
    | some (v, rest) =>
      match skipWs rest with
      | c :: rest2 =>
        if c = ',' then (parseArrElems fuel rest2).map (fun p => (v :: p.1, p.2))
        else if c = ']' then some ([v], rest2)
        else none
      | [] => none

/-- Comma-separated `"key": value` pairs up to a closing brace.  A repeated
key is kept in order here while Python's `dict` would keep the last
occurrence; the JWT payloads this code decodes carry each key once. -/
def parseObjFields : Nat → List Char → Option (List (String × Json) × List Char)
  | 0, _ => none
  | fuel + 1, cs =>
    match skipWs cs with
    | c :: rest =>
      if c = '"' then
        match parseStrBody rest with
        | none => none
        | some (key, rest2) =>
          match skipWs rest2 with
          | d :: rest3 =>
            if d = ':' then
              match parseJson fuel rest3 with
              | none => none
              | some (v, rest4) =>
                match skipWs rest4 with
                | e2 :: rest5 =>
                  if e2 = ',' then
                    (parseObjFields fuel rest5).map (fun p => ((⟨key⟩, v) :: p.1, p.2))
                  else if e2.toNat = 125 then some ([(⟨key⟩, v)], rest5)
                  else none
                | [] => none
            else none
          | [] => none
      else none
    | [] => none

end

/-- `json.loads` on a decoded text: parse one value and require the
remainder to be whitespace. -/
def jsonLoads (cs : List Char) : Option Json :=
  match parseJson (cs.length + 2) cs with
  | some (v, rest) => if (skipWs rest).isEmpty then some v else none
  | none => none

/-- Python `token.split(".")` (note `"".split(".") = [""]`). -/
def splitOnDot : List Char → List (List Char)
  | [] => [[]]
  | c :: rest =>
    if c = '.' then [] :: splitOnDot rest
    else
      match splitOnDot rest with
      | h :: t => (c :: h) :: t
      | [] => [[c]]

/-- `decode_jwt_payload` (auth.py lines 22-37): split on `.`; three parts or
give up; pad the middle part to a multiple of 4 with `=`; base64url-decode,
UTF-8-decode and JSON-parse it.  Every exception is caught and mapped to
`\x7b\x7d` (here `Json.obj []`), so the function never raises. -/
def decodeJwtPayload (token : String) : Json :=
  let parts := splitOnDot token.data
  if parts.length ≠ 3 then .obj []
  else
    let payloadB64 := parts.getD 1 []
    let padding := 4 - payloadB64.length % 4
    let padded := if padding ≠ 4 then payloadB64 ++ List.replicate padding '=' else payloadB64
    match b64DecodeUrl padded with
    | none => .obj []
    | some bytes =>
      match utf8Decode bytes with
      | none => .obj []
      | some chars =>
        match jsonLoads chars with
        | some j => j
        | none => .obj []

/-- `is_token_expired` (auth.py lines 40-47).  The clock `now` is
`time.time()` in whole seconds.  The function is partial in Python:
`"exp" not in payload` raises a `TypeError` when the decoded payload is a
number or boolean, and `payload["exp"]` raises when the payload is a string
or list or when `exp` is non-numeric; those paths are `.error`. -/
def isTokenExpired (token : String) (bufferMinutes : Int) (now : Int) : Except String Bool :=
  let payload := decodeJwtPayload token
  if jsonFalsy payload then .ok true
  else
    match pyIn "exp" payload with
    | .error e => .error e
    | .ok false => .ok true
    | .ok true =>
      match payload with
      | .obj f =>
        match (jsonLookup f "exp").getD .null with
        | .num expiry => .ok (decide (expiry - now ≤ bufferMinutes * 60))
        | _ => .error "TypeError: unsupported operand"
      | .str _ => .error "TypeError: string indices must be integers"
      | .arr _ => .error "TypeError: list indices must be integers"
      | _ => .error "TypeError"

/-- The status-materialization step of `load_accounts_from_file` (auth.py
lines 164-169) on one account dict: if the `account_status` key is absent it
is set to `available`, which appends the key (Python dicts preserve
insertion order and append new keys at the end). -/
def materializeStatus (f : List (String × Json)) : List (String × Json) :=
  if (jsonLookup f "account_status").isSome then f
  else f ++ [("account_status", .str "available")]

/-- The per-element loop of `load_accounts_from_file`: for a dict, check and
materialize `account_status`; a non-dict element either survives the `in`
check unchanged (a string containing `account_status`, a list containing
that string) or makes the loop raise (`in` on a number, or item assignment
on a string/list), which the surrounding `except` turns into `[]`
(`none` here). -/
def loadAccountsLoop : List Json → Option (List Json)
  | [] => some []
  | e :: rest =>
    match e with
    | .obj f => (loadAccountsLoop rest).map (Json.obj (materializeStatus f) :: ·)
    | .str s =>
      if strContains s "account_status" then (loadAccountsLoop rest).map (e :: ·)
      else none
    | .arr l =>
      if l.any (fun x => jsonBeq x (.str "account_status")) then
        (loadAccountsLoop rest).map (e :: ·)
      else none
    | _ => none

/-- `load_accounts_from_file` (auth.py lines 150-180) as a function of the
file contents, modelled as the parsed JSON document (`none`: missing file).
A missing file, a non-array document, or an exception in the
status-initialization loop yields `[]`.  (When the loop materialized a
status the source also rewrites the file; the claim under study concerns
the returned list.) -/
def loadAccountsFromFile (file : Option Json) : List Json :=
  match file with
  | none => []
  | some (.arr elems) =>
    match loadAccountsLoop elems with
    | some out => out
    | none => []
  | some _ => []

/-- `save_accounts_to_file` (auth.py lines 183-196) as a function from the
account list to the file contents: `json.dump` writes the array (pretty
printing with `indent=2, ensure_ascii=False` does not change the parsed
value, so the file is modelled by the JSON document it holds). -/
def saveAccountsToFile (accounts : List Json) : Option Json :=
  some (.arr accounts)

/-- Position of one request handler inside `check_and_refresh_token`
(auth.py lines 331-416), abstracted to its suspension points in the
scenario the concurrency claim quantifies over (no accounts file, quota
threshold 0 so `should_refresh_for_quota` returns `False` before any HTTP,
no force flag).  The source takes no lock anywhere on this path.
`start`: before `load_dotenv(override=True)`; `observed v`: has read
`WARP_JWT` and evaluated `is_token_expired` (`v` = a valid token was seen);
`inHttp`: awaiting the outbound POST inside `refresh_jwt_token` (the
`await client.post(...)` suspension, auth.py line 78); `persisting`: about
to run `update_env_file`; `done`: returned. -/
inductive TaskPC where
  | start
  | observed (valid : Bool)
  | inHttp
  | persisting
  | done
  deriving DecidableEq

/-- Two concurrent callers of `check_and_refresh_token` plus the shared
persisted store, abstracted to whether `WARP_JWT` currently holds a valid
(present, unexpired) token. -/
structure RefreshSystem where
  storeValid : Bool
  t1 : TaskPC
  t2 : TaskPC
  deriving DecidableEq

/-- Interleaving semantics of the two callers.  Each constructor is one
atomic segment of `check_and_refresh_token` between suspension points:
reading the store, branching on validity (a valid token returns `True` with
no outbound call; an invalid one proceeds to the refresh POST), the POST
completing (assumed successful), and persisting the fresh token.  There is
no transition that waits for the other task: the source has no mutex. -/
inductive RefreshStep : RefreshSystem → RefreshSystem → Prop where
  | read1 (s : RefreshSystem) (h : s.t1 = .start) :
      RefreshStep s { s with t1 := .observed s.storeValid }
  | branchValid1 (s : RefreshSystem) (h : s.t1 = .observed true) :
      RefreshStep s { s with t1 := .done }
  | branchInvalid1 (s : RefreshSystem) (h : s.t1 = .observed false) :
      RefreshStep s { s with t1 := .inHttp }
  | httpDone1 (s : RefreshSystem) (h : s.t1 = .inHttp) :
      RefreshStep s { s with t1 := .persisting }
  | persist1 (s : RefreshSystem) (h : s.t1 = .persisting) :
      RefreshStep s { s with t1 := .done, storeValid := true }
  | read2 (s : RefreshSystem) (h : s.t2 = .start) :
      RefreshStep s { s with t2 := .observed s.storeValid }
  | branchValid2 (s : RefreshSystem) (h : s.t2 = .observed true) :
      RefreshStep s { s with t2 := .done }
  | branchInvalid2 (s : RefreshSystem) (h : s.t2 = .observed false) :
      RefreshStep s { s with t2 := .inHttp }
  | httpDone2 (s : RefreshSystem) (h : s.t2 = .inHttp) :
      RefreshStep s { s with t2 := .persisting }
  | persist2 (s : RefreshSystem) (h : s.t2 = .persisting) :
      RefreshStep s { s with t2 := .done, storeValid := true }

/-- Reachability under the interleaving semantics. -/
def RefreshReachable : RefreshSystem → RefreshSystem → Prop :=
  Relation.ReflTransGen RefreshStep

/-- Number of outbound refresh HTTP calls currently in flight. -/
def inFlight (s : RefreshSystem) : Nat :=
  (if s.t1 = .inHttp then 1 else 0) + (if s.t2 = .inHttp then 1 else 0)

/-- An upstream event whose `client_actions.actions` is `["begin_transaction"]`,
as in scenarios S4/S5. -/
def beginEvent : Json :=
  .obj [("client_actions", .obj [("actions", .arr [.str "begin_transaction"])])]

/-- An upstream event whose `client_actions.actions` is `["rollback_transaction"]`. -/
def rollbackEvent : Json :=
  .obj [("client_actions", .obj [("actions", .arr [.str "rollback_transaction"])])]

/-- An upstream event whose `client_actions.actions` is
`["update_task_description"]`: it contains none of the three transaction
actions but matches the stuck signature. -/
def stuckEvent : Json :=
  .obj [("client_actions", .obj [("actions", .arr [.str "update_task_description"])])]

/-- The Chinese prompt of scenario S6. -/
def s6ChineseMsg : String := "请创建文件 foo.py 并写入代码"

/-- The English prompt of scenario S6. -/
def s6EnglishMsg : String := "explain big-O"

/-- A successful `CreateAnonymousUser` response carrying an `idToken`. -/
def anonOkStep1 : Option HttpResponse :=
  some { status := 200, text := "",
         body := some (.obj [("data",
           .obj [("createAnonymousUser", .obj [("idToken", .str "ID1")])])]) }

/-- A successful identity-toolkit sign-in response carrying a
`refreshToken`. -/
def anonOkStep2 : Option HttpResponse :=
  some { status := 200, text := "",
         body := some (.obj [("refreshToken", .str "NEWR")]) }

/-- A successful proxy token-exchange response carrying an `access_token`. -/
def anonOkStep3 : Option HttpResponse :=
  some { status := 200, text := "",
         body := some (.obj [("access_token", .str "A2")]) }

/-- A failing proxy token-exchange response (HTTP 500). -/
def anonFailStep3 : Option HttpResponse :=
  some { status := 500, text := "server error", body := none }

/-- A secrets store holding a complete previous session. -/
def envBefore : EnvState :=
  { jwt := some "OLDJWT", refreshToken := some "OLDREFRESH", idToken := some "OLDID" }

/-- A 429 refresh response whose body matches the invalid-token patterns
but not the quota patterns. -/
def resp429InvalidGrant : HttpResponse :=
  { status := 429, text := "invalid_grant", body := none }

/-- A 401 refresh response. -/
def resp401 : HttpResponse :=
  { status := 401, text := "unauthorized", body := none }

/-- A JWT-shaped token whose middle segment is base64url for the JSON
number `5` (`"NQ"` padded to `"NQ=="` decodes to the byte `0x35`). -/
def tokenNumPayload : String := "x.NQ.y"

/-- A JWT-shaped token whose middle segment is base64url for `\x7b\x7d`
(`"e30"` padded to `"e30="`): the payload decodes to the empty object. -/
def tokenEmptyObjPayload : String := "a.e30.b"

/-!  Lemmas about the stream adaptor shared by several results below. -/

theorem handleSSEEvent_snd_eq (s : HandlerState) (e : Json) :
    (handleSSEEvent s e).2 =
      match emitKind s e with
      | .pass => e
      | .retryMarker => createRetryResponse (s.retry_count + 1)
      | .fallback => createFallbackResponse := by
  simp only [handleSSEEvent, emitKind]
  split_ifs <;> rfl

theorem handleSSEEvent_max_retries (s : HandlerState) (e : Json) :
    (handleSSEEvent s e).1.max_retries = s.max_retries := by
  simp only [handleSSEEvent]
  split_ifs <;> rfl

theorem handleSSEEvent_retry_count (s : HandlerState) (e : Json)
    (hb : containsAction e "begin_transaction" = false) :
    (handleSSEEvent s e).1.retry_count =
      if emitKind s e = .retryMarker then s.retry_count + 1 else s.retry_count := by
  simp only [handleSSEEvent, emitKind, hb, Bool.false_eq_true, if_false]
  split_ifs <;> simp_all

theorem emitKind_retryMarker_lt (s : HandlerState) (e : Json)
    (h : emitKind s e = .retryMarker) : s.retry_count < s.max_retries := by
  unfold emitKind at h
  split_ifs at h <;> simp_all

theorem countRetryMarkers_le_sub (s : HandlerState) (es : List Json)
    (h : ∀ e ∈ es, containsAction e "begin_transaction" = false) :
    countRetryMarkers s es ≤ s.max_retries - s.retry_count := by
  induction es generalizing s with
  | nil => simp [countRetryMarkers]
  | cons e rest ih =>
    have hb : containsAction e "begin_transaction" = false := h e (by simp)
    have hrest : ∀ x ∈ rest, containsAction x "begin_transaction" = false :=
      fun x hx => h x (by simp [hx])
    have hmax := handleSSEEvent_max_retries s e
    have hrc := handleSSEEvent_retry_count s e hb
    have htail := ih (handleSSEEvent s e).1 hrest
    rw [countRetryMarkers]
    by_cases hk : emitKind s e = .retryMarker
    · have hlt := emitKind_retryMarker_lt s e hk
      rw [hrc, if_pos hk, hmax] at htail
      rw [if_pos hk]
      omega
    · rw [hrc, if_neg hk, hmax] at htail
      rw [if_neg hk]
      omega

theorem processEvents_length (s : HandlerState) (es : List Json) :
    (processEvents s es).2.length = es.length := by
  induction es generalizing s with
  | nil => rfl
  | cons e rest ih => simp [processEvents, ih]

theorem processEvents_mem (s : HandlerState) (es : List Json) :
    ∀ o ∈ (processEvents s es).2,
      o ∈ es ∨ (∃ k, o = createRetryResponse k) ∨ o = createFallbackResponse := by
  induction es generalizing s with
  | nil => simp [processEvents]
  | cons e rest ih =>
    intro o ho
    simp only [processEvents, List.mem_cons] at ho
    rcases ho with ho | ho
    · have hsnd := handleSSEEvent_snd_eq s e
      subst ho
      rw [hsnd]
      cases emitKind s e with
      | pass => exact Or.inl (by simp)
      | retryMarker => exact Or.inr (Or.inl ⟨s.retry_count + 1, rfl⟩)
      | fallback => exact Or.inr (Or.inr rfl)
    · rcases ih (handleSSEEvent s e).1 o ho with hmem | hsynth
      · exact Or.inl (List.mem_cons_of_mem e hmem)
      · exact Or.inr hsynth

/-- C1 (confirmed).  A fresh adaptor with `max_retries = 2` processing
`begin_transaction, rollback_transaction, rollback_transaction,
rollback_transaction` emits: the `begin_transaction` event passed through,
the synthesized retry marker for retry 1, the retry marker for retry 2, and
the synthesized fallback message; the final transaction state is `failed`
(scenario S4). -/
theorem stuck_stream_retry_exhaustion_S4 :
    processEvents (mkHandler 2) [beginEvent, rollbackEvent, rollbackEvent, rollbackEvent] =
      ({ transaction_state := .failed, retry_count := 2, max_retries := 2 },
       [beginEvent, createRetryResponse 1, createRetryResponse 2, createFallbackResponse]) :=
  rfl

/-- C4 counterexample.  Over a whole stream the number of synthesized retry
markers is not bounded by `max_retries`: `begin_transaction` resets
`retry_count` (handler lines 56-59), so the stream
`begin, rollback, begin, rollback, begin, rollback` makes a fresh adaptor
with `max_retries = 2` emit three retry markers. -/
theorem retry_markers_exceed_max_over_stream :
    (processEvents (mkHandler 2)
        [beginEvent, rollbackEvent, beginEvent, rollbackEvent, beginEvent, rollbackEvent]).2 =
      [beginEvent, createRetryResponse 1, beginEvent, createRetryResponse 1,
       beginEvent, createRetryResponse 1] ∧
    countRetryMarkers (mkHandler 2)
        [beginEvent, rollbackEvent, beginEvent, rollbackEvent, beginEvent, rollbackEvent] = 3 ∧
      (mkHandler 2).max_retries = 2 ∧ 2 < 3 :=
  ⟨rfl, by decide, rfl, by decide⟩

/-- C4 (corrected).  Conservation holds: the adaptor emits exactly one event
per inbound event, and every emitted event is either a pass-through of an
inbound event or one of the two synthesized payloads, so the emitted count
is the pass-through count plus the synthesized count.  The retry-marker
bound holds per transaction segment, not over the whole stream: for any
stretch of the stream containing no `begin_transaction` event (which would
reset `retry_count`), the adaptor emits at most
`max_retries - retry_count` retry markers. -/
theorem emitted_events_conservation_and_retry_bound (s : HandlerState) (es : List Json) :
    ((processEvents s es).2.length = es.length ∧
      ∀ o ∈ (processEvents s es).2,
        o ∈ es ∨ (∃ k, o = createRetryResponse k) ∨ o = createFallbackResponse) ∧
    ((∀ e ∈ es, containsAction e "begin_transaction" = false) →
      countRetryMarkers s es ≤ s.max_retries - s.retry_count) :=
  ⟨⟨processEvents_length s es, processEvents_mem s es⟩,
   fun h => countRetryMarkers_le_sub s es h⟩

/-- Witness for C4's theorem at the no-`begin` stream
`[rollback, rollback, rollback]` from a fresh adaptor with
`max_retries = 2`. -/
theorem emitted_events_conservation_and_retry_bound_witness :
    (processEvents (mkHandler 2) [rollbackEvent, rollbackEvent, rollbackEvent]).2.length = 3 ∧
      countRetryMarkers (mkHandler 2) [rollbackEvent, rollbackEvent, rollbackEvent] ≤ 2 :=
  ⟨(emitted_events_conservation_and_retry_bound (mkHandler 2)
      [rollbackEvent, rollbackEvent, rollbackEvent]).1.1,
   (emitted_events_conservation_and_retry_bound (mkHandler 2)
      [rollbackEvent, rollbackEvent, rollbackEvent]).2 (by decide)⟩

/-- C5 counterexample.  On a stuck-signature event carrying none of the
transaction actions (`actions = ["update_task_description"]`), a fresh
adaptor does not behave as in the rollback branch: the source's stuck
branch (handler lines 81-87) never assigns `transaction_state`, so the
state stays `idle` — the claim requires it to become `failed` and then
`retrying` — even though the retry marker is emitted and `retry_count`
becomes 1. -/
theorem stuck_branch_leaves_state_unchanged :
    (handleSSEEvent (mkHandler 2) stuckEvent).1.transaction_state = .idle ∧
      TransactionState.idle ≠ .failed ∧ TransactionState.idle ≠ .retrying ∧
      (handleSSEEvent (mkHandler 2) stuckEvent).1.retry_count = 1 ∧
      (handleSSEEvent (mkHandler 2) stuckEvent).2 = createRetryResponse 1 :=
  ⟨rfl, by decide, by decide, rfl, rfl⟩

/-- C5 (corrected).  A stuck-signature event that contains none of the
begin/rollback/commit actions is handled like the rollback branch for retry
counting and emission — `retry_count < max_retries` increments the counter
and emits a retry marker without forwarding the original event, otherwise
the fallback message is emitted — but unlike the rollback branch the
transaction state is left unchanged (neither `failed` nor `retrying` is
assigned). -/
theorem stuck_signature_branch_behaviour (s : HandlerState) (e : Json)
    (h1 : containsAction e "begin_transaction" = false)
    (h2 : containsAction e "rollback_transaction" = false)
    (h3 : containsAction e "commit_transaction" = false)
    (h4 : isStuckResponse e = true) :
    (s.retry_count < s.max_retries →
      handleSSEEvent s e =
        ({ s with retry_count := s.retry_count + 1 }, createRetryResponse (s.retry_count + 1))) ∧
    (¬ s.retry_count < s.max_retries →
      handleSSEEvent s e = (s, createFallbackResponse)) := by
  constructor <;> intro hlt <;> simp [handleSSEEvent, h1, h2, h3, h4, hlt]

/-- Witness for C5's theorem at a fresh adaptor and the
`update_task_description` event. -/
theorem stuck_signature_branch_behaviour_witness :
    handleSSEEvent (mkHandler 2) stuckEvent =
      ({ transaction_state := .idle, retry_count := 1, max_retries := 2 },
       createRetryResponse 1) :=
  (stuck_signature_branch_behaviour (mkHandler 2) stuckEvent
    (by decide) (by decide) (by decide) (by decide)).1 (by decide)

/-- C10 (confirmed).  When a rollback or stuck-signature event arrives with
`retry_count` already at `max_retries`, the adaptor's output for that event
is exactly the synthesized fallback message; the original upstream event is
not forwarded in the fallback case either (handler lines 71-73 and 86-87
`return self._create_fallback_response()`). -/
theorem fallback_suppresses_original_event (s : HandlerState) (e : Json)
    (hmax : s.max_retries ≤ s.retry_count)
    (h : (containsAction e "begin_transaction" = false ∧
            containsAction e "rollback_transaction" = true) ∨
         (containsAction e "begin_transaction" = false ∧
            containsAction e "rollback_transaction" = false ∧
            containsAction e "commit_transaction" = false ∧
            isStuckResponse e = true)) :
    (handleSSEEvent s e).2 = createFallbackResponse := by
  have hnlt : ¬ s.retry_count < s.max_retries := by omega
  rcases h with ⟨hb, hr⟩ | ⟨hb, hr, hc, hs⟩
  · simp [handleSSEEvent, hb, hr, hnlt]
  · simp [handleSSEEvent, hb, hr, hc, hs, hnlt]

/-- Witness for C10's theorem: an exhausted adaptor receiving a rollback
event emits the fallback message. -/
theorem fallback_suppresses_original_event_witness :
    (handleSSEEvent { transaction_state := .active, retry_count := 2, max_retries := 2 }
        rollbackEvent).2 = createFallbackResponse :=
  fallback_suppresses_original_event
    { transaction_state := .active, retry_count := 2, max_retries := 2 }
    rollbackEvent (by decide) (Or.inl ⟨by decide, by decide⟩)

theorem risk_score_chinese_eq : assessFileOperationRisk s6ChineseMsg = 2/19 := by
  have hne : s6ChineseMsg.isEmpty = false := rfl
  have hp : ((riskPatternMatches (lowerString s6ChineseMsg).data).filter id).length = 1 := rfl
  have hk : (fileOperationKeywords.filter
      (fun k => hasSub (lowerString s6ChineseMsg).data k.data)).length = 2 := rfl
  rw [assessFileOperationRisk]
  simp only [hne, Bool.false_eq_true, if_false, hp, hk, pyMin]
  norm_num

theorem risk_score_english_eq : assessFileOperationRisk s6EnglishMsg = 0 := by
  have hne : s6EnglishMsg.isEmpty = false := rfl
  have hp : ((riskPatternMatches (lowerString s6EnglishMsg).data).filter id).length = 0 := rfl
  have hk : (fileOperationKeywords.filter
      (fun k => hasSub (lowerString s6EnglishMsg).data k.data)).length = 0 := rfl
  rw [assessFileOperationRisk]
  simp only [hne, Bool.false_eq_true, if_false, hp, hk, pyMin]
  norm_num

theorem transform_low_score_unchanged (msg : String) (q : ℚ)
    (h7 : ¬ q > 7/10) (h4 : ¬ q > 2/5) : transformRiskyRequest msg q = msg := by
  rw [transformRiskyRequest, if_neg h7, if_neg h4]

/-- C6 counterexample.  For "请创建文件 foo.py 并写入代码" the risk score is
2/19 ≈ 0.105, not ≥ 0.7: exactly one pattern (`创建.*?文件`) and two
keywords (`创建文件`, `文件`) match, and the source normalizes by the full
denominator `len(patterns) + len(keywords) = 19` (handler line 215), so the
transform leaves the message unchanged instead of producing the wrapped
instruction. -/
theorem chinese_prompt_risk_score_below_threshold :
    assessFileOperationRisk s6ChineseMsg = 2/19 ∧
      ¬ (7/10 : ℚ) ≤ assessFileOperationRisk s6ChineseMsg ∧
      transformRiskyRequest s6ChineseMsg (assessFileOperationRisk s6ChineseMsg) = s6ChineseMsg :=
  ⟨risk_score_chinese_eq,
   by rw [risk_score_chinese_eq]; norm_num,
   by rw [risk_score_chinese_eq]
      exact transform_low_score_unchanged _ _ (by norm_num) (by norm_num)⟩

/-- C6 (corrected).  The Chinese prompt scores 2/19 (below both the 0.7 and
0.4 thresholds), so `transform` returns it unchanged; "explain big-O"
scores 0 and is returned unchanged, as the claim states for the second
input. -/
theorem risk_classifier_S6_scores :
    assessFileOperationRisk s6ChineseMsg = 2/19 ∧
      transformRiskyRequest s6ChineseMsg (assessFileOperationRisk s6ChineseMsg) = s6ChineseMsg ∧
      assessFileOperationRisk s6EnglishMsg = 0 ∧
      transformRiskyRequest s6EnglishMsg (assessFileOperationRisk s6EnglishMsg) = s6EnglishMsg :=
  ⟨risk_score_chinese_eq,
   by rw [risk_score_chinese_eq]
      exact transform_low_score_unchanged _ _ (by norm_num) (by norm_num),
   risk_score_english_eq,
   by rw [risk_score_english_eq]
      exact transform_low_score_unchanged _ _ (by norm_num) (by norm_num)⟩

theorem jsonLookup_any_iff_isSome (f : List (String × Json)) (k : String) :
    f.any (fun kv => kv.1 == k) = true ↔ (jsonLookup f k).isSome := by
  induction f with
  | nil => simp [jsonLookup]
  | cons kv rest ih =>
    obtain ⟨k2, v⟩ := kv
    by_cases h : k2 = k
    · simp [jsonLookup, h]
    · simp [jsonLookup, h, ih]

theorem acquire_idToken_invariant (r1 r2 r3 : Option HttpResponse) (env : EnvState) :
    (acquireAnonymousAccessToken r1 r2 r3 env).2.idToken = env.idToken := by
  unfold acquireAnonymousAccessToken
  repeat' split
  all_goals rfl

/-- C2 counterexample.  Refresh persistence is not atomic and the three
tokens need not end up from the same session.  With a store holding a full
old session: (a) a fully successful anonymous acquisition returns ok and
persists the new access and refresh tokens but never writes
`WARP_ID_TOKEN`, leaving the old session's identity token alongside them;
(b) when the final token exchange fails (HTTP 500), the new refresh token
persisted at auth.py line 571 remains while the access token is still the
old one — a visible partial update. -/
theorem anonymous_acquisition_partial_updates :
    (acquireAnonymousAccessToken anonOkStep1 anonOkStep2 anonOkStep3 envBefore =
      (.ok (.str "A2"),
       { jwt := some "A2", refreshToken := some "NEWR", idToken := some "OLDID" })) ∧
    (acquireAnonymousAccessToken anonOkStep1 anonOkStep2 anonFailStep3 envBefore =
      (.error "Acquire access_token failed",
       { jwt := some "OLDJWT", refreshToken := some "NEWR", idToken := some "OLDID" })) :=
  ⟨rfl, rfl⟩

/-- C2 (corrected).  On the ok path of anonymous acquisition the persisted
access token is the returned one and the refresh token is the one obtained
in the same flow, but the identity token is never written: it keeps
whatever value it had before the call.  (Partial updates on failing paths
are likewise possible, as the counterexample shows.) -/
theorem anonymous_acquisition_ok_persistence (r1 r2 r3 : Option HttpResponse)
    (env : EnvState) (s : String)
    (h : (acquireAnonymousAccessToken r1 r2 r3 env).1 = .ok (.str s)) :
    (acquireAnonymousAccessToken r1 r2 r3 env).2.jwt = some s ∧
      (acquireAnonymousAccessToken r1 r2 r3 env).2.idToken = env.idToken := by
  refine ⟨?_, acquire_idToken_invariant r1 r2 r3 env⟩
  revert h
  unfold acquireAnonymousAccessToken
  repeat' split
  all_goals intro h
  all_goals simp_all

/-- Witness for C2's theorem at the fully successful anonymous
acquisition. -/
theorem anonymous_acquisition_ok_persistence_witness :
    (acquireAnonymousAccessToken anonOkStep1 anonOkStep2 anonOkStep3 envBefore).2.jwt =
        some "A2" ∧
      (acquireAnonymousAccessToken anonOkStep1 anonOkStep2 anonOkStep3 envBefore).2.idToken =
        envBefore.idToken :=
  anonymous_acquisition_ok_persistence anonOkStep1 anonOkStep2 anonOkStep3 envBefore "A2" rfl

/-- C3 counterexample.  The error mapping is an `elif` chain on the status
code: a 429 response whose body matches `invalid_grant` (but not the quota
phrases) is classified `refresh_failed`, not `invalid_token` as the claim's
body-pattern clause requires — the body patterns are never consulted on a
429. -/
theorem refresh_429_invalid_grant_misclassified :
    (refreshJwtToken (some resp429InvalidGrant) envBefore).1 = errJson "refresh_failed" ∧
      strContains (lowerString resp429InvalidGrant.text) "invalid_grant" = true ∧
      "refresh_failed" ≠ "invalid_token" :=
  ⟨rfl, rfl, by decide⟩

/-- C3 (corrected).  The outcome mapping of `refresh_jwt_token`: a 200 whose
body parses to a dict is returned as-is (ok when it carries `access_token`;
the callers persist that token), and an `id_token` string in it is
persisted while a 200 without one leaves the store untouched; a 401 yields
`invalid_token` regardless of body; a 429 yields `quota_exhausted` exactly
when the body matches the quota phrases and otherwise `refresh_failed`
(the invalid-token body patterns are not consulted on a 429); any other
status yields `invalid_token` when the body matches
`invalid_grant`/`invalid_token`/`refresh token is invalid` and
`refresh_failed` otherwise. -/
theorem refresh_outcome_mapping (r : HttpResponse) (env : EnvState) :
    (∀ f, r.status = 200 → r.body = some (.obj f) →
      (refreshJwtToken (some r) env).1 = .obj f ∧
        (∀ s, jsonLookup f "id_token" = some (.str s) →
          (refreshJwtToken (some r) env).2.idToken = some s) ∧
        (jsonLookup f "id_token" = none → (refreshJwtToken (some r) env).2 = env)) ∧
    (r.status = 401 → (refreshJwtToken (some r) env).1 = errJson "invalid_token") ∧
    (r.status = 429 →
      (refreshJwtToken (some r) env).1 =
        errJson (if strContains (lowerString r.text) "no remaining quota" ||
            strContains (lowerString r.text) "no ai requests remaining" then
          "quota_exhausted" else "refresh_failed")) ∧
    (r.status ≠ 200 → r.status ≠ 401 → r.status ≠ 429 →
      (refreshJwtToken (some r) env).1 =
        errJson (if strContains (lowerString r.text) "invalid_grant" ||
            strContains (lowerString r.text) "invalid_token" ||
            strContains (lowerString r.text) "refresh token is invalid" then
          "invalid_token" else "refresh_failed")) := by
  refine ⟨?_, ?_, ?_, ?_⟩
  · intro f h200 hbody
    simp only [refreshJwtToken, h200, if_pos rfl, hbody, pyIn]
    cases hany : f.any (fun kv => kv.1 == "id_token") with
    | false =>
      have hn : jsonLookup f "id_token" = none := by
        cases hl : jsonLookup f "id_token" with
        | none => rfl
        | some v =>
          exact absurd ((jsonLookup_any_iff_isSome f "id_token").mpr (by simp [hl]))
            (by simp [hany])
      refine ⟨rfl, ?_, fun _ => rfl⟩
      intro s hs
      rw [hn] at hs
      exact Option.noConfusion hs
    | true =>
      refine ⟨rfl, ?_, ?_⟩
      · intro s hs
        simp [hs, updateEnvIdToken]
      · intro hnone
        have := (jsonLookup_any_iff_isSome f "id_token").mp hany
        rw [hnone] at this
        exact Option.noConfusion (Option.isSome_iff_exists.mp this).choose_spec
  · intro h401
    have : r.status ≠ 200 := by omega
    simp [refreshJwtToken, this, refreshErrorType, h401]
  · intro h429
    have h200 : r.status ≠ 200 := by omega
    have h401 : r.status ≠ 401 := by omega
    simp [refreshJwtToken, h200, refreshErrorType, h401, h429]
  · intro h200 h401 h429
    simp only [refreshJwtToken, h200, if_neg, refreshErrorType, h401, h429, if_false]
    split_ifs <;> simp_all

/-- Witness for C3's theorem at the 401 response. -/
theorem refresh_outcome_mapping_witness :
    (refreshJwtToken (some resp401) envBefore).1 = errJson "invalid_token" :=
  (refresh_outcome_mapping resp401 envBefore).2.1 rfl

/-- C8 counterexample.  `decode` never raises, but `is_expired` can: for the
token `"x.NQ.y"` the middle segment base64url-decodes to the byte string
`5`, whose JSON parse is the number 5 — a truthy non-container — so
`"exp" not in payload` raises a `TypeError` instead of returning `True`
(the payload is non-empty and lacks `exp`, so the claim requires `true`). -/
theorem is_expired_raises_on_numeric_payload :
    decodeJwtPayload tokenNumPayload = Json.num 5 ∧
      isTokenExpired tokenNumPayload 0 0 = .error "TypeError: argument is not iterable" :=
  ⟨rfl, rfl⟩

/-- C8 (corrected).  For every token whose decoded payload is a JSON object
with an integer (or absent) `exp` — which covers every failed decode, since
decode maps all failures to the empty object, and every real JWT —
`is_expired(token, buffer, now)` returns true iff the payload is empty, or
lacks `exp`, or `exp − now ≤ buffer` (the buffer argument is minutes, so
the window is `60·buffer` seconds); `decode` itself never raises.  For a
payload that is a bare number or boolean, `is_expired` raises a `TypeError`
from the membership test, as the counterexample shows. -/
theorem is_token_expired_characterization (t : String) (b now : Int)
    (fields : List (String × Json))
    (hdec : decodeJwtPayload t = .obj fields)
    (hexp : jsonLookup fields "exp" = none ∨
      ∃ k : Int, jsonLookup fields "exp" = some (.num k)) :
    (isTokenExpired t b now = .ok true ↔
      (fields = [] ∨ jsonLookup fields "exp" = none ∨
        ∃ k : Int, jsonLookup fields "exp" = some (.num k) ∧ k - now ≤ b * 60)) := by
  unfold isTokenExpired
  rw [hdec]
  by_cases hemp : fields = []
  · subst hemp
    simp [jsonFalsy]
  · have hf : jsonFalsy (.obj fields) = false := by
      simpa [jsonFalsy, List.isEmpty_iff] using hemp
    dsimp only
    rw [hf]
    simp only [Bool.false_eq_true, if_false, pyIn]
    cases hany : fields.any (fun kv => kv.1 == "exp") with
    | false =>
      have hn : jsonLookup fields "exp" = none := by
        cases hl : jsonLookup fields "exp" with
        | none => rfl
        | some v =>
          exact absurd ((jsonLookup_any_iff_isSome fields "exp").mpr (by simp [hl]))
            (by simp [hany])
      simp [hn]
    | true =>
      rcases hexp with hn | ⟨k, hk⟩
      · have := (jsonLookup_any_iff_isSome fields "exp").mp hany
        rw [hn] at this
        exact Option.noConfusion (Option.isSome_iff_exists.mp this).choose_spec
      · rw [hk]
        simp [hemp, hk, decide_eq_true_eq]

/-- Witness for C8's theorem at the token whose payload is the empty
object. -/
theorem is_token_expired_characterization_witness :
    isTokenExpired tokenEmptyObjPayload 0 0 = .ok true :=
  (is_token_expired_characterization tokenEmptyObjPayload 0 0 [] rfl
    (Or.inl rfl)).mpr (Or.inl rfl)

theorem loadAccountsLoop_map_obj (accs : List (List (String × Json))) :
    loadAccountsLoop (accs.map Json.obj) =
      some (accs.map (fun f => Json.obj (materializeStatus f))) := by
  induction accs with
  | nil => rfl
  | cons f rest ih => simp [loadAccountsLoop, ih]

theorem jsonLookup_append_of_none (f g : List (String × Json)) (k : String)
    (h : jsonLookup f k = none) : jsonLookup (f ++ g) k = jsonLookup g k := by
  induction f with
  | nil => rfl
  | cons kv rest ih =>
    obtain ⟨k2, v⟩ := kv
    by_cases hk : k2 = k
    · simp [jsonLookup, hk] at h
    · simp only [jsonLookup, if_neg hk, List.cons_append] at h ⊢
      exact ih h

/-- C9 (confirmed).  Saving a list of account records and loading it back
returns the same list up to materializing a missing `account_status` field
as `available` (the materialization only appends that one field, so field
order is otherwise preserved), and every loaded account carries
`account_status`. -/
theorem accounts_save_load_roundtrip (accs : List (List (String × Json))) :
    loadAccountsFromFile (saveAccountsToFile (accs.map Json.obj)) =
      accs.map (fun f => Json.obj (materializeStatus f)) ∧
    (∀ f, materializeStatus f = f ∨
      materializeStatus f = f ++ [("account_status", Json.str "available")]) ∧
    (∀ f, (jsonLookup (materializeStatus f) "account_status").isSome) := by
  refine ⟨?_, fun f => ?_, fun f => ?_⟩
  · simp [loadAccountsFromFile, saveAccountsToFile, loadAccountsLoop_map_obj]
  · unfold materializeStatus
    split_ifs
    · exact Or.inl rfl
    · exact Or.inr rfl
  · unfold materializeStatus
    split_ifs with h
    · exact h
    · have hn : jsonLookup f "account_status" = none := by
        cases hl : jsonLookup f "account_status" with
        | none => rfl
        | some v => exact absurd (by simp [hl] : (jsonLookup f "account_status").isSome) h
      rw [jsonLookup_append_of_none f _ _ hn]
      simp [jsonLookup]

/-- C7 counterexample.  `check_and_refresh_token` contains no mutex and no
singleflight: from a store holding no valid token, two concurrent callers
can interleave so that both read the stale store and both enter the
outbound refresh POST, putting two refresh HTTP calls in flight at once. -/
theorem concurrent_refresh_calls_both_in_flight :
    RefreshReachable { storeValid := false, t1 := .start, t2 := .start }
        { storeValid := false, t1 := .inHttp, t2 := .inHttp } ∧
      inFlight { storeValid := false, t1 := .inHttp, t2 := .inHttp } = 2 :=
  ⟨Relation.ReflTransGen.tail
      (Relation.ReflTransGen.tail
        (Relation.ReflTransGen.tail
          (Relation.ReflTransGen.single (RefreshStep.read1 _ rfl))
          (RefreshStep.branchInvalid1 _ rfl))
        (RefreshStep.read2 _ rfl))
      (RefreshStep.branchInvalid2 _ rfl),
   rfl⟩

/-- C7 (corrected).  Concurrent callers are not serialized — the source has
no mutex and duplicate outbound refresh calls can be in flight (see the
counterexample).  What the entry-point reload does provide: a caller that
observed a valid persisted token never proceeds to an outbound refresh
call — in every reachable continuation it is still at that observation or
has returned. -/
theorem valid_observer_never_enters_http (s s2 : RefreshSystem)
    (h : RefreshReachable s s2) :
    (s.t1 = .observed true → s2.t1 = .observed true ∨ s2.t1 = .done) ∧
      (s.t2 = .observed true → s2.t2 = .observed true ∨ s2.t2 = .done) := by
  induction h with
  | refl => exact ⟨fun h1 => Or.inl h1, fun h2 => Or.inl h2⟩
  | tail hab hbc ih =>
    refine ⟨fun h1 => ?_, fun h2 => ?_⟩
    · rcases ih.1 h1 with hb | hb <;> cases hbc <;> simp_all
    · rcases ih.2 h2 with hb | hb <;> cases hbc <;> simp_all

/-- Witness for C7's theorem: a caller that observed a valid token steps
only to `done`. -/
theorem valid_observer_never_enters_http_witness :
    ({ storeValid := true, t1 := .done, t2 := .start } : RefreshSystem).t1 =
        .observed true ∨
      ({ storeValid := true, t1 := .done, t2 := .start } : RefreshSystem).t1 = .done :=
  (valid_observer_never_enters_http
    { storeValid := true, t1 := .observed true, t2 := .start }
    { storeValid := true, t1 := .done, t2 := .start }
    (Relation.ReflTransGen.single (RefreshStep.branchValid1 _ rfl))).1 rfl

end W4rp